import Mathlib

/-!
Verification of the Emirates application-status watcher
(`monitor_status.py`) against its specification.

The embedding follows the source file section by section:
configuration helpers (`_require`, environment defaults), disk I/O
(`read_last_status` / `write_last_status`), email composition and
sending (`_compose_email` / `_send_email`), Playwright page helpers
(`_dismiss_cookies` / `_click_login`), and the orchestrator
(`_check_once`).  External effects (page driver calls, SMTP, file
system, stdout) are made explicit: page behaviour is a `Page` record
of oracle predicates, the notifier outcome is a function argument,
and each operation returns the trace of effects it performed.
-/

namespace MonitorStatus

/-! ## Configuration (monitor_status.py lines 31-69) -/

/-- Source: `COOKIE_WAIT_MS: Final[int] = 8000`. -/
def COOKIE_WAIT_MS : Nat := 8000

/-- Source: `CHECK_TIMEOUT_MS = int(os.getenv("CHECK_TIMEOUT_MS", "60000"))`;
the already-parsed environment value is modelled as an `Option Nat`. -/
def check_timeout_ms (env : Option Nat) : Nat :=
  env.getD 60000

/-- Source: `SMTP_PORT = int(os.getenv("SMTP_PORT", "465"))`. -/
def smtp_port (env : Option Nat) : Nat :=
  env.getD 465

/-- Source: `_require(var, name)` — raises
`RuntimeError(f"Environment variable {name} is required but missing.")`
when `not var`, i.e. when the variable is unset (`None`) or the empty
string; otherwise returns the value. -/
def _require (var : Option String) (name : String) : Except String String :=
  match var with
  | none => .error ("Environment variable " ++ name ++ " is required but missing.")
  | some s =>
    if s = "" then
      .error ("Environment variable " ++ name ++ " is required but missing.")
    else .ok s

/-- The raw environment values the module reads at startup
(lines 37-41 of the source). -/
structure Env where
  emirates_user : Option String
  emirates_pass : Option String
  email_from : Option String
  email_to : Option String
  email_password : Option String

/-- The validated configuration after the `_require` calls. -/
structure Config where
  username : String
  password : String
  email_from : String
  email_to : String
  email_password : String
deriving DecidableEq

/-- The module-level startup sequence of `_require` calls
(lines 65-69 of the source), in source order; the first failure
aborts startup before anything else runs. -/
def loadConfig (e : Env) : Except String Config := do
  let u ← _require e.emirates_user "EMIRATES_USER"
  let p ← _require e.emirates_pass "EMIRATES_PASS"
  let f ← _require e.email_from "EMAIL_FROM"
  let t ← _require e.email_to "EMAIL_TO"
  let w ← _require e.email_password "EMAIL_PASSWORD"
  pure { username := u, password := p, email_from := f, email_to := t,
         email_password := w }

/-! ## Disk I/O (lines 88-92)

The status file is modelled as `Option String`: `none` when the file
does not exist, `some content` for its exact text. -/

/-- Python `str.strip()`: drop leading and trailing whitespace
characters.  Executable model of the `.strip()` calls in the source. -/
def pyStrip (s : String) : String :=
  ⟨((s.data.dropWhile Char.isWhitespace).reverse.dropWhile
      Char.isWhitespace).reverse⟩

/-- Source: `read_last_status`: `path.read_text().strip() if path.exists() else ""`. -/
def read_last_status (file : Option String) : String :=
  match file with
  | some content => pyStrip content
  | none => ""

/-- Source: `write_last_status`: `path.write_text(status)` — the
argument is persisted verbatim, replacing any previous file. -/
def write_last_status (status : String) (_file : Option String) : Option String :=
  some status

/-! ## Email (lines 98-109) -/

/-- A composed `EmailMessage`. -/
structure Email where
  subject : String
  efrom : String
  eto : String
  content : String
deriving DecidableEq

/-- Source: `_compose_email(new_status)`. -/
def _compose_email (new_status efrom eto : String) : Email :=
  { subject := "Emirates application status updated"
    efrom := efrom
    eto := eto
    content := "Your application status changed to: " ++ new_status }

/-- The transport an SMTP connection uses. -/
inductive Transport where
  | implicitTLS
  | starttls
deriving DecidableEq

/-- One SMTP connection as `_send_email` opens it: host, port, the
transport chosen, the login user, and the messages sent.  Source lines
106-109: `smtplib.SMTP_SSL(SMTP_SERVER, SMTP_PORT, ...)` (implicit TLS,
whatever the port), `s.login(EMAIL_FROM, EMAIL_PASSWORD)`,
`s.send_message(_compose_email(new_status))`. -/
structure SmtpSession where
  host : String
  port : Nat
  transport : Transport
  loginUser : String
  loginPass : String
  sent : List Email
deriving DecidableEq

/-- Source: `_send_email(new_status)` with the configuration values
passed explicitly. -/
def _send_email (server : String) (port : Nat)
    (efrom eto password new_status : String) : SmtpSession :=
  { host := server
    port := port
    transport := .implicitTLS
    loginUser := efrom
    loginPass := password
    sent := [_compose_email new_status efrom eto] }

/-- The transport the spec prescribes for a configured relay port:
port 465 means implicit TLS, any other port means STARTTLS.  Stated
from the spec for comparison with `_send_email`. -/
def specTransportForPort (port : Nat) : Transport :=
  if port = 465 then .implicitTLS else .starttls

/-! ## Playwright page helpers (lines 45-54, 115-140)

A `Page` records, per selector, how the driver calls behave on the
current page: whether `wait_for_selector` finds it within its timeout,
whether `is_visible` reports it visible, whether clicking it succeeds,
and whether it detaches after being clicked. -/

/-- Source: `COOKIE_ACCEPT = "#onetrust-accept-btn-handler"`. -/
def COOKIE_ACCEPT : String := "#onetrust-accept-btn-handler"

/-- Source: `LOGIN_BUTTON_ID = "#login"`. -/
def LOGIN_BUTTON_ID : String := "#login"

/-- Oracle for the page driver calls made by the helpers. -/
structure Page where
  appears : String → Bool
  visible : String → Bool
  clickOk : String → Bool
  detaches : String → Bool

/-- An exception a page-driver call can raise. -/
inductive PwError where
  | timeout (sel : String)
  | clickError (sel : String)
deriving DecidableEq

/-- The body of `_dismiss_cookies` before its `except` handler
(lines 117-119): wait for the accept button, click it, wait for it to
detach.  Returns the clicks performed so far paired with the exception
raised, if any. -/
def dismissCookiesBody (p : Page) : List String × Option PwError :=
  if !p.appears COOKIE_ACCEPT then
    ([], some (.timeout COOKIE_ACCEPT))
  else if !p.clickOk COOKIE_ACCEPT then
    ([], some (.clickError COOKIE_ACCEPT))
  else if !p.detaches COOKIE_ACCEPT then
    ([COOKIE_ACCEPT], some (.timeout COOKIE_ACCEPT))
  else
    ([COOKIE_ACCEPT], none)

/-- Source: `_dismiss_cookies(page)` — the body under
`try: ... except Exception: pass`: every exception is swallowed and
the clicks performed up to that point stand. -/
def _dismiss_cookies (p : Page) : List String :=
  (dismissCookiesBody p).1

/-- Source lines 129-135: the ordered login-button selector
candidates probed by `_click_login`. -/
def candidates : List String :=
  [LOGIN_BUTTON_ID,
   "button:has-text(\"Log in\")",
   "text=\"Log in\"",
   "button[value=\"Log in\"]",
   "button[type=\"submit\"]"]

/-- The error `_click_login` raises when no candidate is visible
(source: `RuntimeError("Login button not found - please update selectors.")`). -/
inductive LoginClickError where
  | LoginControlNotFound
deriving DecidableEq

/-- The `for sel in candidates` loop of `_click_login` (lines
136-140): return the first selector reported visible, or raise. -/
def clickFirstVisible (p : Page) : List String → Except LoginClickError String
  | [] => .error .LoginControlNotFound
  | sel :: rest => if p.visible sel then .ok sel else clickFirstVisible p rest

/-- Source: `_click_login(page)` — first `await _dismiss_cookies(page)`,
then probe the candidates and click the first visible one.  Result:
the full ordered click trace paired with the outcome. -/
def _click_login (p : Page) : List String × Except LoginClickError Unit :=
  match clickFirstVisible p candidates with
  | .ok sel => (_dismiss_cookies p ++ [sel], .ok ())
  | .error e => (_dismiss_cookies p, .error e)

/-! ## Orchestrator (lines 189-199) -/

/-- The two failures the mail relay can produce, per the spec taxonomy;
`_send_email` raising either aborts the rest of `_check_once`. -/
inductive MailError where
  | AuthenticationRejected
  | TransportFailure
deriving DecidableEq

/-- The observable effects of one `_check_once` cycle: store writes in
order, notifier calls in order, lines printed in order, and the
exception that propagated out, if any. -/
structure CycleResult where
  writes : List String
  notifies : List String
  prints : List String
  raised : Option MailError
deriving DecidableEq

/-- Python `s or alt` for strings: `alt` when `s` is empty. -/
def pyOr (s alt : String) : String :=
  if s = "" then alt else s

/-- The f-string of line 197:
`f"Status changed: {last or '[none]'} -> {status or '[empty]'}"`
(with the actual arrow character). -/
def summaryLine (last status : String) : String :=
  "Status changed: " ++ pyOr last "[none]" ++ " → " ++ pyOr status "[empty]"

/-- Source: `_check_once()` with the fetched status, the stored value
read back, and the notifier outcome as parameters.  Line order matters:
`write_last_status(status)` runs first; then, when `status` is
non-empty, `print(status)` and `_send_email(status)`; a notifier
exception aborts the cycle before the summary print of line 197. -/
def _check_once (last status : String)
    (send : String → Except MailError Unit) : CycleResult :=
  if status ≠ last then
    if status ≠ "" then
      match send status with
      | .ok _ =>
        { writes := [status], notifies := [status]
          prints := [status, summaryLine last status], raised := none }
      | .error e =>
        { writes := [status], notifies := [status]
          prints := [status], raised := some e }
    else
      { writes := [status], notifies := []
        prints := [summaryLine last status], raised := none }
  else
    { writes := [], notifies := [], prints := ["No change detected."],
      raised := none }

/-- The stored value after a cycle, given the value stored before it. -/
def finalStore (init : String) (r : CycleResult) : String :=
  r.writes.getLastD init

/-! ## Theorems -/

/-- Claim C3: for every pair of Status values `(a, b)` with `a == b`,
one check cycle with stored value `a` and observed value `b` performs
no store write and no Notifier call, and emits the no-change result
line. -/
theorem C3_no_change_cycle (a : String)
    (send : String → Except MailError Unit) :
    (_check_once a a send).writes = [] ∧
    (_check_once a a send).notifies = [] ∧
    (_check_once a a send).prints = ["No change detected."] ∧
    (_check_once a a send).raised = none := by
  simp [_check_once]

/-- Claim C1, counterexample: with stored value `"Pending"`, observed
value `"Offer"` and a Notifier that raises, the stored value after the
cycle is `"Offer"`, not `"Pending"` — the store write is not gated on
Notifier success. -/
theorem C1_counterexample :
    finalStore "Pending"
        (_check_once "Pending" "Offer"
          (fun _ => Except.error MailError.AuthenticationRejected)) = "Offer" ∧
    ("Offer" : String) ≠ "Pending" := by
  decide

/-- Claim C1 (amended): for `a ≠ b` with `b` non-empty, the cycle
calls the Notifier exactly once with `b`, but writes `b` to the store
unconditionally before the Notifier call; whether the Notifier
succeeds or raises, the stored value afterwards is `b`, not `a`. -/
theorem C1_amended_write_precedes_notify (a b : String)
    (send : String → Except MailError Unit) (hab : a ≠ b) (hb : b ≠ "") :
    (_check_once a b send).notifies = [b] ∧
    (_check_once a b send).writes = [b] ∧
    finalStore a (_check_once a b send) = b := by
  have hba : b ≠ a := fun h => hab h.symm
  cases hsend : send b with
  | ok u => simp [_check_once, finalStore, hba, hb, hsend]
  | error e => simp [_check_once, finalStore, hba, hb, hsend]

theorem C1_amended_witness :
    (_check_once "Pending" "Offer"
        (fun _ => Except.error MailError.TransportFailure)).notifies = ["Offer"] ∧
    (_check_once "Pending" "Offer"
        (fun _ => Except.error MailError.TransportFailure)).writes = ["Offer"] ∧
    finalStore "Pending"
        (_check_once "Pending" "Offer"
          (fun _ => Except.error MailError.TransportFailure)) = "Offer" :=
  C1_amended_write_precedes_notify "Pending" "Offer" _ (by decide) (by decide)

/-- Claim C2, counterexample: with stored value `"Under Review"` and
observed value `""`, the cycle does write the store, and the stored
value afterwards is the empty string — the non-empty value is
overwritten. -/
theorem C2_counterexample :
    (_check_once "Under Review" "" (fun _ => Except.ok ())).writes ≠ [] ∧
    finalStore "Under Review"
        (_check_once "Under Review" "" (fun _ => Except.ok ())) = "" := by
  decide

/-- Claim C2 (amended): when the observed status is empty and the
stored value non-empty, the cycle writes the empty string to the store
(overwriting the non-empty value) and makes no Notifier call. -/
theorem C2_amended_empty_overwrites (a : String)
    (send : String → Except MailError Unit) (ha : a ≠ "") :
    (_check_once a "" send).writes = [""] ∧
    (_check_once a "" send).notifies = [] ∧
    finalStore a (_check_once a "" send) = "" := by
  have h0 : ("" : String) ≠ a := fun h => ha h.symm
  simp [_check_once, finalStore, h0]

theorem C2_amended_witness :
    (_check_once "Under Review" "" (fun _ => Except.ok ())).writes = [""] ∧
    (_check_once "Under Review" "" (fun _ => Except.ok ())).notifies = [] ∧
    finalStore "Under Review"
        (_check_once "Under Review" "" (fun _ => Except.ok ())) = "" :=
  C2_amended_empty_overwrites "Under Review" _ (by decide)

/-- The candidate probe returns exactly the first candidate the page
reports visible. -/
theorem clickFirstVisible_eq_find (p : Page) (l : List String) :
    clickFirstVisible p l =
      match l.find? p.visible with
      | some sel => Except.ok sel
      | none => Except.error LoginClickError.LoginControlNotFound := by
  induction l with
  | nil => rfl
  | cons s rest ih =>
    cases h : p.visible s
    · simpa [clickFirstVisible, h, List.find?_cons] using ih
    · simp [clickFirstVisible, h, List.find?_cons]

/-- Claim C4: `_click_login` first runs the cookie-consent dismissal,
then probes the ordered candidate list; when some candidate is visible
its click trace is the cookie-stage clicks followed by exactly the
first visible candidate, and when none is visible it raises
`LoginControlNotFound` having clicked nothing beyond the cookie
stage. -/
theorem C4_click_login (p : Page) :
    (∀ sel, candidates.find? p.visible = some sel →
        _click_login p = (_dismiss_cookies p ++ [sel], Except.ok ())) ∧
    (candidates.find? p.visible = none →
        _click_login p =
          (_dismiss_cookies p, Except.error LoginClickError.LoginControlNotFound)) := by
  constructor
  · intro sel h
    simp [_click_login, clickFirstVisible_eq_find, h]
  · intro h
    simp [_click_login, clickFirstVisible_eq_find, h]

/-- A page with no cookie banner, an invisible `#login`, and a visible
third candidate. -/
def pageW : Page :=
  { appears := fun _ => false
    visible := fun s => s == "text=\"Log in\""
    clickOk := fun _ => true
    detaches := fun _ => true }

theorem C4_witness :
    _click_login pageW =
      (_dismiss_cookies pageW ++ ["text=\"Log in\""], Except.ok ()) :=
  (C4_click_login pageW).1 _ (by decide)

/-- Claim C5: when the bounded wait for the cookie-consent control
times out (the control is absent), the stage performs no click and
completes; the inner wait does raise a timeout, but `_dismiss_cookies`
is total — its blanket exception handler swallows every error, so
nothing propagates to the caller. -/
theorem C5_cookie_absent_noop (p : Page)
    (h : p.appears COOKIE_ACCEPT = false) :
    _dismiss_cookies p = [] ∧
    (dismissCookiesBody p).2 = some (PwError.timeout COOKIE_ACCEPT) := by
  simp [_dismiss_cookies, dismissCookiesBody, h]

/-- A page on which no selector ever appears or is visible. -/
def pageNoBanner : Page :=
  { appears := fun _ => false
    visible := fun _ => false
    clickOk := fun _ => true
    detaches := fun _ => true }

theorem C5_witness :
    _dismiss_cookies pageNoBanner = [] ∧
    (dismissCookiesBody pageNoBanner).2 = some (PwError.timeout COOKIE_ACCEPT) :=
  C5_cookie_absent_noop pageNoBanner rfl

/-- Claim C6: for every Status string `s` (a trimmed string, per the
data model — hypothesis `s.trim = s`), writing `s` and reading back
returns `s` exactly, and reading with no existing record returns the
empty string. -/
theorem C6_store_roundtrip (s : String) (file : Option String)
    (hs : pyStrip s = s) :
    read_last_status (write_last_status s file) = s ∧
    read_last_status none = "" := by
  constructor
  · simp [read_last_status, write_last_status, hs]
  · rfl

theorem C6_witness :
    read_last_status (write_last_status "Under Review" none) = "Under Review" ∧
    read_last_status none = "" :=
  C6_store_roundtrip "Under Review" none (by decide)

/-- Claim C7, counterexample: in the scenario stored `""`, observed
`"Under Review"` (Notifier succeeding), the cycle prints two lines,
and the transition line is `"Status changed: [none] → Under Review"`;
no printed line equals `"[none] → Under Review"`. -/
theorem C7_counterexample :
    (_check_once "" "Under Review" (fun _ => Except.ok ())).prints =
      ["Under Review", "Status changed: [none] → Under Review"] ∧
    "[none] → Under Review" ∉
      (_check_once "" "Under Review" (fun _ => Except.ok ())).prints := by
  decide

/-- Claim C7 (amended): a cycle whose Notifier call succeeds prints
exactly one summary line — `"No change detected."` on no change,
otherwise `"Status changed: {previous or [none]} → {current or
[empty]}"` — and in the changed non-empty case additionally prints the
bare status on its own line before the summary. -/
theorem C7_amended_prints (last status : String)
    (send : String → Except MailError Unit) (h : send status = Except.ok ()) :
    (_check_once last status send).prints =
      (if status ≠ last ∧ status ≠ "" then [status] else []) ++
      [if status = last then "No change detected."
       else summaryLine last status] := by
  by_cases h1 : status = last
  · simp [_check_once, h1]
  · by_cases h2 : status = ""
    · subst h2
      simp [_check_once, h1]
    · simp [_check_once, h1, h2, h]

theorem C7_amended_witness :
    (_check_once "" "Under Review" (fun _ => Except.ok ())).prints =
      ["Under Review", "Status changed: [none] → Under Review"] := by
  rw [C7_amended_prints "" "Under Review" (fun _ => Except.ok ()) rfl]
  decide

/-- Claim C8, counterexample: on configured port 587 the sender still
opens an implicit-TLS connection, while the spec prescribes STARTTLS
for every port other than 465. -/
theorem C8_counterexample :
    (_send_email "smtp.gmail.com" 587 "from@example.com" "to@example.com"
        "pw" "Offer").transport = Transport.implicitTLS ∧
    specTransportForPort 587 = Transport.starttls ∧
    Transport.implicitTLS ≠ Transport.starttls := by
  decide

/-- Claim C8 (amended): the mail sender uses implicit TLS
(`smtplib.SMTP_SSL`) for every configured relay port — no STARTTLS
path exists; the port merely defaults to 465 when unset. -/
theorem C8_amended_always_implicit_tls
    (server efrom eto password status : String) (port : Nat) :
    (_send_email server port efrom eto password status).transport
        = Transport.implicitTLS ∧
    smtp_port none = 465 :=
  ⟨rfl, rfl⟩

/-- Claim C9: `read_last_status` returns the file content with leading
and trailing whitespace stripped (hence always a trimmed value), while
`write_last_status` persists its argument verbatim; so an untrimmed
persisted value reads back trimmed, differing from what was written. -/
theorem C9_read_trims_write_verbatim (content s : String)
    (file : Option String) :
    read_last_status (some content) = pyStrip content ∧
    write_last_status s file = some s ∧
    read_last_status (write_last_status "  Under Review " none)
        = "Under Review" ∧
    read_last_status (write_last_status "  Under Review " none)
        ≠ "  Under Review " := by
  refine ⟨rfl, rfl, ?_, ?_⟩ <;> decide

/-- The startup environment of the C10 witness: `EMIRATES_USER` set to
the empty string, everything else present. -/
def envW : Env :=
  { emirates_user := some ""
    emirates_pass := some "p"
    email_from := some "f"
    email_to := some "t"
    email_password := some "w" }

/-- Claim C10: a required variable set to the empty string is treated
identically to an unset one — `_require` fails with the same error,
naming the variable — and the startup `_require` sequence aborts with
that error (so nothing later in the module, network activity included,
runs). -/
theorem C10_empty_env_var_is_missing (name : String) (e : Env) :
    _require (some "") name = _require none name ∧
    _require (some "") name =
      Except.error ("Environment variable " ++ name ++ " is required but missing.") ∧
    (e.emirates_user = some "" →
      loadConfig e =
        Except.error "Environment variable EMIRATES_USER is required but missing.") := by
  refine ⟨by simp [_require], by simp [_require], ?_⟩
  intro h
  simp [loadConfig, _require, h, Bind.bind, Except.bind]

theorem C10_witness :
    _require (some "") "EMIRATES_USER" = _require none "EMIRATES_USER" ∧
    loadConfig envW =
      Except.error "Environment variable EMIRATES_USER is required but missing." :=
  ⟨(C10_empty_env_var_is_missing "EMIRATES_USER" envW).1,
   (C10_empty_env_var_is_missing "EMIRATES_USER" envW).2.2 rfl⟩

end MonitorStatus
